import Mathlib

/-!
Verification development for the quiz application.

This file gives a shallow embedding, in Lean, of the parts of the
repository that the specification talks about, and proves or refutes the
specified properties against that embedding.

Embedded source files:
- `src/models/question.py` (class `Question`, validation and answer checking)
- `src/quiz/questions.py` (classes `MultipleChoiceQuestion`,
  `TrueFalseQuestion`, `ShortAnswerQuestion`)
- `src/models/user.py` (class `User`)
- `src/utils/timer.py` (class `Timer`)
- `src/patterns/observer.py` and `src/quiz/observer.py` (`Subject.notify`)
- `src/services/quiz_manager.py` (class `QuizManager`)
- `src/quiz/quiz_manager.py` (the second, divergent `QuizManager`)

Modelling conventions:
- Python dynamic values that flow through answers are modelled by the
  inductive `PyVal` (strings, booleans, integers, None), and the Python
  `==` on those values by `pyEq`; note that Python identifies `True` with
  `1` and `False` with `0`, which `pyEq` reproduces.
- Wall-clock time (`time.time()`) is modelled at whole-second granularity
  by an explicit `now : Int` argument threaded through every operation
  that reads the clock; the background countdown thread is not modelled
  (the claims below concern the foreground call paths only).
- Python exceptions are modelled with `Except String`: an operation that
  may raise returns `Except String _`, and a `try/except` block in the
  source is modelled by matching on the result.  Mutation of `self` is
  modelled by returning the updated state.
- Locks (`threading.Lock`) are not modelled: the claims concern the
  sequential semantics of single calls.
-/

namespace QuizApp

/-- Python values that appear as answers, correct answers and options in
the quiz code: strings, booleans, integers and None. -/
inductive PyVal where
  | str (s : String)
  | bool (b : Bool)
  | int (n : Int)
  | none
deriving DecidableEq

/-- Python structural equality `==` restricted to `PyVal`. Python treats
`True == 1` and `False == 0` as true (bool is a subtype of int); values of
otherwise different types compare unequal, and comparison never raises. -/
def pyEq : PyVal → PyVal → Bool
  | .str s, .str t => s == t
  | .bool a, .bool b => a == b
  | .int m, .int n => m == n
  | .bool a, .int n => (if a then (1 : Int) else 0) == n
  | .int n, .bool a => n == (if a then (1 : Int) else 0)
  | .none, .none => true
  | _, _ => false

/-- Python membership `x in options` for a list of option strings, which
tests `==` against each element. -/
def pyMem (v : PyVal) (options : List String) : Bool :=
  options.any fun o => pyEq (.str o) v

/-- Python whitespace, as stripped by `str.strip()` (ASCII subset). -/
def pyIsSpace (c : Char) : Bool :=
  c == ' ' || c == '\t' || c == '\n' || c == '\x0b' || c == '\x0c' || c == '\r'

/-- Python `str.strip()`: drops leading and trailing whitespace. -/
def pyStrip (s : String) : String :=
  ⟨((s.data.dropWhile pyIsSpace).reverse.dropWhile pyIsSpace).reverse⟩

/-- Python `str.lower()` (ASCII model). -/
def pyLower (s : String) : String :=
  ⟨s.data.map Char.toLower⟩

/-- Decidable equality of `Except` results, for evaluating the model on
concrete inputs. -/
instance {ε α : Type} [DecidableEq ε] [DecidableEq α] : DecidableEq (Except ε α) := fun a b =>
  match a, b with
  | .error e, .error f =>
    if h : e = f then .isTrue (by rw [h]) else .isFalse (by simp [h])
  | .ok x, .ok y =>
    if h : x = y then .isTrue (by rw [h]) else .isFalse (by simp [h])
  | .error _, .ok _ => .isFalse (by simp)
  | .ok _, .error _ => .isFalse (by simp)

/-- Python `isinstance(v, bool)` on a `PyVal`. -/
def PyVal.is_bool : PyVal → Bool
  | .bool _ => true
  | _ => false

/-- Python `isinstance(v, str)` on a `PyVal`. -/
def PyVal.is_str : PyVal → Bool
  | .str _ => true
  | _ => false

/-! ## `src/models/question.py` -/

/-- The `Question` class of `src/models/question.py`: one record for all
three answer kinds, discriminated by the `question_type` string
(`"mcq"`, `"true_false"`, `"short_answer"`).  `options` defaults to the
empty list (`options or []` in the constructor). -/
structure Question where
  text : String
  question_type : String
  correct_answer : PyVal
  points : Int
  options : List String
  explanation : Option String
deriving DecidableEq

/-- Models `Question._validate_question` of `src/models/question.py`: the checks
run by the constructor, in source order.  Every raised `ValueError` is
re-wrapped by the surrounding `except` block into
`ValueError("Validation failed: ...")`, which we keep as the message
prefix. -/
def Question.validate_question (q : Question) : Except String Unit :=
  if pyStrip q.text == "" then
    .error "Validation failed: Question text cannot be empty"
  else if q.points < 0 then
    .error "Validation failed: Points cannot be negative"
  else if q.question_type == "mcq" then
    if q.options.isEmpty then
      .error "Validation failed: MCQ questions must have options"
    else if q.options.length < 2 then
      .error "Validation failed: MCQ questions must have at least 2 options"
    else if !(pyMem q.correct_answer q.options) then
      .error "Validation failed: Correct answer must be one of the options"
    else .ok ()
  else if q.question_type == "true_false" then
    if !q.correct_answer.is_bool then
      .error "Validation failed: True/False questions must have boolean correct answer"
    else if !q.options.isEmpty then
      .error "Validation failed: True/False questions should not have options"
    else .ok ()
  else if q.question_type == "short_answer" then
    if !q.correct_answer.is_str then
      .error "Validation failed: Short answer questions must have string correct answer"
    else if !q.options.isEmpty then
      .error "Validation failed: Short answer questions should not have options"
    else .ok ()
  else
    .error ("Validation failed: Unsupported question type: " ++ q.question_type)

/-- Models `Question.check_answer` of `src/models/question.py`.  For `"mcq"` and
`"true_false"` it is plain Python `==`; for `"short_answer"` it compares
trimmed, lower-cased strings when both sides are strings and falls back to
`==` otherwise.  On the `PyVal` types the comparisons never raise, so the
model is a total function. -/
def Question.check_answer (q : Question) (user_answer : PyVal) : Bool :=
  if q.question_type == "mcq" then
    pyEq user_answer q.correct_answer
  else if q.question_type == "true_false" then
    pyEq user_answer q.correct_answer
  else if q.question_type == "short_answer" then
    match user_answer, q.correct_answer with
    | .str u, .str c => pyLower (pyStrip u) == pyLower (pyStrip c)
    | u, c => pyEq u c
  else
    pyEq user_answer q.correct_answer

/-- Models `Question.get_correct_answer` of `src/models/question.py`. -/
def Question.get_correct_answer (q : Question) : PyVal :=
  q.correct_answer

/-! ## `src/quiz/questions.py` -/

/-- The class hierarchy of `src/quiz/questions.py`: one constructor per
concrete subclass of the abstract `Question` there. -/
inductive QQuestion where
  | mcq (text : String) (options : List String) (correct_answer : String) (points : Int)
  | trueFalse (text : String) (correct_answer : Bool) (points : Int)
  | shortAnswer (text : String) (correct_answer : String) (points : Int)
deriving DecidableEq

/-- The `points` attribute shared by all subclasses. -/
def QQuestion.points : QQuestion → Int
  | .mcq _ _ _ p => p
  | .trueFalse _ _ p => p
  | .shortAnswer _ _ p => p

/-- The `check_answer` methods of the three subclasses in
`src/quiz/questions.py`: `MultipleChoiceQuestion` and `TrueFalseQuestion`
use Python `==`; `ShortAnswerQuestion` returns `False` for a non-string
candidate and otherwise compares trimmed lower-cased strings. -/
def QQuestion.check_answer : QQuestion → PyVal → Bool
  | .mcq _ _ c _, ua => pyEq ua (.str c)
  | .trueFalse _ c _, ua => pyEq ua (.bool c)
  | .shortAnswer _ c _, ua =>
    match ua with
    | .str u => pyLower (pyStrip u) == pyLower (pyStrip c)
    | _ => false

/-- The `get_correct_answer` methods of `src/quiz/questions.py`. -/
def QQuestion.get_correct_answer : QQuestion → PyVal
  | .mcq _ _ c _ => .str c
  | .trueFalse _ c _ => .bool c
  | .shortAnswer _ c _ => .str c

/-! ## `src/models/user.py` -/

/-- The `User` class of `src/models/user.py`. -/
structure User where
  name : String
  current_score : Int
  total_score : Int
  quizzes_taken : Nat
deriving DecidableEq

/-- Models `User.__init__`. -/
def User.new (name : String) : User :=
  { name := name, current_score := 0, total_score := 0, quizzes_taken := 0 }

/-- Models `User.start_new_quiz`: resets the current score. -/
def User.start_new_quiz (u : User) : User :=
  { u with current_score := 0 }

/-- Models `User.add_points`: raises `ValueError` on negative points, otherwise
adds to the current score. -/
def User.add_points (u : User) (points : Int) : Except String User :=
  if points < 0 then .error "Points cannot be negative"
  else .ok { u with current_score := u.current_score + points }

/-- Models `User.complete_quiz`: folds the current score into the totals. -/
def User.complete_quiz (u : User) : User :=
  { u with total_score := u.total_score + u.current_score,
           quizzes_taken := u.quizzes_taken + 1 }

/-! ## `src/utils/timer.py` -/

/-- The `Timer` class of `src/utils/timer.py`.  Instants are modelled at
whole-second granularity as `Int`; the fields mirror the Python
attributes.  The countdown thread is not modelled; the claims concern the
synchronous methods, which every foreground path goes through. -/
structure Timer where
  duration : Int
  remaining_time : Int
  start_time : Option Int
  end_time : Option Int
  is_running : Bool
  is_expired : Bool
deriving DecidableEq

/-- Models `Timer.__init__(duration)`. -/
def Timer.new (duration : Int) : Timer :=
  { duration := duration, remaining_time := duration, start_time := none,
    end_time := none, is_running := false, is_expired := false }

/-- Models `Timer.start` at instant `now`: a no-op while already running,
otherwise records the start instant and the deadline
`end_time = now + duration` and raises the running flag. -/
def Timer.start (t : Timer) (now : Int) : Timer :=
  if t.is_running then t
  else { t with start_time := some now, end_time := some (now + t.duration),
                is_running := true, is_expired := false }

/-- Models `Timer.stop`: clears the running flag (a no-op when not running).  The
thread join has no state effect beyond that. -/
def Timer.stop (t : Timer) : Timer :=
  if !t.is_running then t else { t with is_running := false }

/-- Models `Timer.get_remaining_time` at instant `now`: returns 0 when not
running or already expired, otherwise `max(0, end_time - now)`, caching it
in `remaining_time` and eagerly marking the timer expired when it reaches
0.  Returns the value together with the mutated timer. -/
def Timer.get_remaining_time (t : Timer) (now : Int) : Int × Timer :=
  if !t.is_running || t.is_expired then (0, t)
  else
    match t.end_time with
    | none => (0, t)
    | some e =>
      let remaining := max 0 (e - now)
      let t1 := { t with remaining_time := remaining }
      if remaining == 0 then
        (remaining, { t1 with is_expired := true, is_running := false })
      else (remaining, t1)

/-- Models `Timer.is_time_expired` at instant `now`: true if the expired flag is
already set; false when not running; otherwise consults
`get_remaining_time` and latches the expired flag when it returns 0. -/
def Timer.is_time_expired (t : Timer) (now : Int) : Bool × Timer :=
  if t.is_expired then (true, t)
  else if !t.is_running then (false, t)
  else
    let rt := t.get_remaining_time now
    if rt.1 == 0 then (true, { rt.2 with is_expired := true, is_running := false })
    else (false, rt.2)

/-- Models `Timer.is_time_up`, an alias for `is_time_expired`. -/
def Timer.is_time_up (t : Timer) (now : Int) : Bool × Timer :=
  t.is_time_expired now

/-- Models `Timer.get_elapsed_time` at instant `now`: 0 before the timer was
started, otherwise `now - start_time`.  Does not mutate the timer. -/
def Timer.get_elapsed_time (t : Timer) (now : Int) : Int :=
  match t.start_time with
  | none => 0
  | some s => now - s

/-! ## `Subject.notify` of `src/patterns/observer.py` and `src/quiz/observer.py`

A subscriber is modelled as an id paired with a callback that either
returns normally (`.ok`) or throws (`.error`).  `notify` is modelled by
the list of subscriber ids whose `update` method gets invoked with the
payload, in order. -/

/-- Models `Subject.notify` of `src/patterns/observer.py`: the `for` loop over
observers sits inside a single `try/except`, so the first subscriber that
throws is the last one invoked — the exception is caught and logged, the
loop is abandoned, and `notify` returns normally.  The result is the list
of ids invoked with the payload. -/
def notifyPatterns {α ε : Type} :
    List (Nat × (α → Except ε Unit)) → α → List Nat
  | [], _ => []
  | (i, f) :: rest, payload =>
    match f payload with
    | .ok _ => i :: notifyPatterns rest payload
    | .error _ => [i]

/-- Models `Subject.notify` of `src/quiz/observer.py`: the bare `for` loop has no
exception handling, so the first subscriber that throws is the last one
invoked and the exception propagates out of `notify`.  The result is the
list of ids invoked with the payload, plus the escaping exception if
any. -/
def notifyQuiz {α ε : Type} :
    List (Nat × (α → Except ε Unit)) → α → List Nat × Option ε
  | [], _ => ([], Option.none)
  | (i, f) :: rest, payload =>
    match f payload with
    | .ok _ =>
      let r := notifyQuiz rest payload
      (i :: r.1, r.2)
    | .error e => ([i], some e)

/-! ## `src/services/quiz_manager.py` -/

/-- The `QuizManager` class of `src/services/quiz_manager.py` (the
service variant: score lives on the `User`, timing on a `Timer`). -/
structure QuizManager where
  questions : List Question
  current_question_index : Nat
  current_user : Option User
  timer : Option Timer
  quiz_active : Bool
  quiz_duration : Int
deriving DecidableEq

/-- Models `QuizManager.__init__`. -/
def QuizManager.new : QuizManager :=
  { questions := [], current_question_index := 0, current_user := none,
    timer := none, quiz_active := false, quiz_duration := 300 }

/-- The expression `self.current_user.current_score if self.current_user
else 0`, which the source repeats in `submit_answer`, `end_quiz` and
`get_quiz_progress`. -/
def QuizManager.user_score (qm : QuizManager) : Int :=
  match qm.current_user with
  | some u => u.current_score
  | none => 0

/-- Models `QuizManager.load_questions`: raises `ValueError` on an empty list,
otherwise stores the questions and resets the index. -/
def QuizManager.load_questions (qm : QuizManager) (questions : List Question) :
    Except String QuizManager :=
  if questions.isEmpty then .error "Questions list cannot be empty"
  else .ok { qm with questions := questions, current_question_index := 0 }

/-- Models `QuizManager.start_quiz` at instant `now`: raises `ValueError` with no
questions loaded; otherwise resets the index, marks the quiz active,
overrides the duration when the argument is truthy (`if duration:` — so
`None` and `0` both keep the configured duration), creates and starts a
fresh `Timer`, and resets the user score (`user.start_new_quiz()`).  The
`if not user` check cannot fire in this model, where a `User` value is
always supplied. -/
def QuizManager.start_quiz (qm : QuizManager) (user : User) (duration : Option Int)
    (now : Int) : Except String QuizManager :=
  if qm.questions.isEmpty then .error "No questions loaded"
  else
    let qd := match duration with
      | some d => if d == 0 then qm.quiz_duration else d
      | none => qm.quiz_duration
    let t := (Timer.new qd).start now
    .ok { qm with current_user := some user.start_new_quiz,
                  current_question_index := 0, quiz_active := true,
                  quiz_duration := qd, timer := some t }

/-- Models `QuizManager.get_current_question`: the question at the current index,
or `none` when no questions are loaded or the index is out of range. -/
def QuizManager.get_current_question (qm : QuizManager) : Option Question :=
  if qm.questions.isEmpty || qm.questions.length ≤ qm.current_question_index then none
  else qm.questions[qm.current_question_index]?

/-- The result dictionary returned by
`QuizManager.submit_answer` in `src/services/quiz_manager.py`:
`answered` is the normal dict (correctness, points earned, correct
answer, explanation, running score); `timeUp` is the dict
`{correct: False, points_earned: 0, error: "Time is up! Quiz ended."}`;
`caught` is the dict `{correct: False, points_earned: 0, error: str(e)}`
produced by the blanket `except` when a `ValueError` was raised inside
the method (the exception does NOT propagate to the caller). -/
inductive SubmitResult where
  | answered (correct : Bool) (points_earned : Int) (correct_answer : PyVal)
      (explanation : Option String) (current_score : Int)
  | timeUp
  | caught (msg : String)
deriving DecidableEq

/-- Models `QuizManager.end_quiz`: the results dictionary, computed from the
current stored state (both the already-inactive branch and the active
branch build exactly this dictionary). -/
structure QuizResults where
  total_questions : Nat
  answered_questions : Nat
  final_score : Int
  user_name : String
  elapsed_time : Int
deriving DecidableEq

/-- The results dictionary of `QuizManager.end_quiz`, as built from a
given state at instant `now`. -/
def QuizManager.results_from_state (qm : QuizManager) (now : Int) : QuizResults :=
  { total_questions := qm.questions.length
    answered_questions := min qm.current_question_index qm.questions.length
    final_score := qm.user_score
    user_name := match qm.current_user with
      | some u => u.name
      | none => "Unknown"
    elapsed_time := match qm.timer with
      | some t => t.get_elapsed_time now
      | none => 0 }

/-- Models `QuizManager.end_quiz` at instant `now`.  When the quiz is already
inactive it returns the summary derived from the current stored state and
changes nothing; when active it clears the active flag, stops the timer,
completes the quiz for the user (`User.complete_quiz`) and returns the
summary computed from the resulting state.  Nothing in the body can raise
on this model, so the surrounding `except` (which would return `{}`) is
unreachable. -/
def QuizManager.end_quiz (qm : QuizManager) (now : Int) : QuizResults × QuizManager :=
  if !qm.quiz_active then (qm.results_from_state now, qm)
  else
    let qm1 := { qm with quiz_active := false,
                         timer := qm.timer.map Timer.stop,
                         current_user := qm.current_user.map User.complete_quiz }
    (qm1.results_from_state now, qm1)

/-- Models `QuizManager.next_question` at instant `now`: increments the index
and, when it has reached the end of the question list, ends the quiz as a
side effect (returning `false`); otherwise returns `true`. -/
def QuizManager.next_question (qm : QuizManager) (now : Int) : Bool × QuizManager :=
  let qm1 := { qm with current_question_index := qm.current_question_index + 1 }
  if qm1.questions.length ≤ qm1.current_question_index then
    (false, (qm1.end_quiz now).2)
  else (true, qm1)

/-- The scoring tail of `QuizManager.submit_answer`
(`src/services/quiz_manager.py` lines 125–156): runs after the
active-quiz and timer-expiry checks have passed.  Raised `ValueError`s
(`"No current question"`, or `"Points cannot be negative"` out of
`User.add_points`) are caught by the blanket `except` of `submit_answer`
and surface as a `caught` result; mutations made before the raise (none
on these paths beyond the timer update already applied by the caller)
persist. -/
def QuizManager.submit_answer_core (qm : QuizManager) (answer : PyVal) (now : Int) :
    SubmitResult × QuizManager :=
  match qm.get_current_question with
  | Option.none => (.caught "No current question", qm)
  | some q =>
    let is_correct := q.check_answer answer
    let points_earned := if is_correct then q.points else 0
    match qm.current_user with
    | some u =>
      match u.add_points points_earned with
      | .error e => (.caught e, qm)
      | .ok u1 =>
        let qmU := { qm with current_user := some u1 }
        let result := SubmitResult.answered is_correct points_earned
          q.get_correct_answer q.explanation qmU.user_score
        (result, (qmU.next_question now).2)
    | Option.none =>
      let result := SubmitResult.answered is_correct points_earned
        q.get_correct_answer q.explanation qm.user_score
      (result, (qm.next_question now).2)

/-- Models `QuizManager.submit_answer` at instant `now`.  With no active quiz the
raised `ValueError("No active quiz")` is caught by the blanket `except`
and returned as an error dictionary — it does not propagate.  With an
active quiz it first consults `self.timer.is_time_up()`; if the timer has
expired it ends the quiz and returns the time-up dictionary, otherwise it
scores the answer (`submit_answer_core`). -/
def QuizManager.submit_answer (qm : QuizManager) (answer : PyVal) (now : Int) :
    SubmitResult × QuizManager :=
  if !qm.quiz_active then (.caught "No active quiz", qm)
  else
    match qm.timer with
    | some t =>
      let et := t.is_time_up now
      let qmT := { qm with timer := some et.2 }
      if et.1 then (.timeUp, (qmT.end_quiz now).2)
      else qmT.submit_answer_core answer now
    | Option.none => qm.submit_answer_core answer now

/-- The dictionary returned by `QuizManager.get_quiz_progress`:
`inactive` is `{active: False}` (with the optional `error` entry), and
`active` carries the 1-based question number, the total, the remaining
time and the running score. -/
inductive ProgressInfo where
  | inactive (error : Option String)
  | active (current_question : Nat) (total_questions : Nat)
      (remaining_time : Int) (current_score : Int)
deriving DecidableEq

/-- Models `QuizManager.get_quiz_progress` at instant `now`: inactive indicator
when the quiz is not active; when the timer reports expired, marks the
quiz inactive as a side effect and returns the inactive indicator with
the `"Time is up"` error entry; otherwise the active progress record
(consulting `get_remaining_time`, which mutates the timer again). -/
def QuizManager.get_quiz_progress (qm : QuizManager) (now : Int) :
    ProgressInfo × QuizManager :=
  if !qm.quiz_active then (.inactive Option.none, qm)
  else
    match qm.timer with
    | some t =>
      let et := t.is_time_expired now
      let qm1 := { qm with timer := some et.2 }
      if et.1 then (.inactive (some "Time is up"), { qm1 with quiz_active := false })
      else
        let rt := et.2.get_remaining_time now
        let qm2 := { qm1 with timer := some rt.2 }
        (.active (qm2.current_question_index + 1) qm2.questions.length rt.1
          qm2.user_score, qm2)
    | Option.none =>
      (.active (qm.current_question_index + 1) qm.questions.length 0
        qm.user_score, qm)

/-! ## `src/quiz/quiz_manager.py` (the second `QuizManager`)

This variant stores the score on the manager itself and keeps only a
start instant (no `Timer` object).  Its `submit_answer` and `end_quiz`
have no `try/except`, so raised `ValueError`s propagate to the caller,
which the model expresses with `Except`. -/

/-- The `QuizManager` class of `src/quiz/quiz_manager.py`. -/
structure QuizManager2 where
  questions : List QQuestion
  current_question_index : Nat
  current_user : Option String
  quiz_active : Bool
  quiz_duration : Int
  start_time : Option Int
  current_score : Int
deriving DecidableEq

/-- Models `QuizManager.__init__` of `src/quiz/quiz_manager.py` (the state of
the freshly created singleton). -/
def QuizManager2.new : QuizManager2 :=
  { questions := [], current_question_index := 0, current_user := none,
    quiz_active := false, quiz_duration := 300, start_time := none,
    current_score := 0 }

/-- Models `load_questions` of `src/quiz/quiz_manager.py`. -/
def QuizManager2.load_questions (qm : QuizManager2) (questions : List QQuestion) :
    Except String QuizManager2 :=
  if questions.isEmpty then .error "Questions list cannot be empty"
  else .ok { qm with questions := questions, current_question_index := 0 }

/-- Models `start_quiz` of `src/quiz/quiz_manager.py` at instant `now`. -/
def QuizManager2.start_quiz (qm : QuizManager2) (user_name : String)
    (duration : Option Int) (now : Int) : Except String QuizManager2 :=
  if qm.questions.isEmpty then .error "No questions loaded"
  else
    let qd := match duration with
      | some d => if d == 0 then qm.quiz_duration else d
      | none => qm.quiz_duration
    .ok { qm with current_user := some user_name, current_question_index := 0,
                  quiz_active := true, current_score := 0, quiz_duration := qd,
                  start_time := some now }

/-- Models `get_current_question` of `src/quiz/quiz_manager.py`. -/
def QuizManager2.get_current_question (qm : QuizManager2) : Option QQuestion :=
  if qm.questions.isEmpty || qm.questions.length ≤ qm.current_question_index then none
  else qm.questions[qm.current_question_index]?

/-- The results dictionary of `end_quiz` in `src/quiz/quiz_manager.py`
(note: `answered_questions` is the raw index, not clamped, and
`user_name` can be `None`). -/
structure QuizResults2 where
  user_name : Option String
  final_score : Int
  total_questions : Nat
  answered_questions : Nat
  elapsed_time : Int
deriving DecidableEq

/-- Models `end_quiz` of `src/quiz/quiz_manager.py` at instant `now`: raises
`ValueError("No active quiz to end")` when the quiz is not active — the
error propagates to the caller; otherwise clears the active flag and
returns the summary. -/
def QuizManager2.end_quiz (qm : QuizManager2) (now : Int) :
    Except String (QuizResults2 × QuizManager2) :=
  if !qm.quiz_active then .error "No active quiz to end"
  else
    let qm1 := { qm with quiz_active := false }
    let elapsed := match qm.start_time with
      | some s => now - s
      | none => 0
    .ok ({ user_name := qm.current_user, final_score := qm.current_score,
           total_questions := qm.questions.length,
           answered_questions := qm.current_question_index,
           elapsed_time := elapsed }, qm1)

/-- Models `next_question` of `src/quiz/quiz_manager.py` at instant `now`
(sequential semantics; the re-acquisition of the non-reentrant lock is
not modelled). -/
def QuizManager2.next_question (qm : QuizManager2) (now : Int) :
    Except String (Bool × QuizManager2) :=
  let qm1 := { qm with current_question_index := qm.current_question_index + 1 }
  if qm1.questions.length ≤ qm1.current_question_index then
    (qm1.end_quiz now).map fun r => (false, r.2)
  else .ok (true, qm1)

/-- The result dictionary of `submit_answer` in
`src/quiz/quiz_manager.py`. -/
structure SubmitResult2 where
  correct : Bool
  points_earned : Int
  correct_answer : PyVal
  current_score : Int
deriving DecidableEq

/-- Models `submit_answer` of `src/quiz/quiz_manager.py` at instant `now`: with
no active quiz or no current question it raises `ValueError`, which
propagates to the caller (there is no `try/except` in this variant);
otherwise it scores the answer into `current_score` and advances. -/
def QuizManager2.submit_answer (qm : QuizManager2) (answer : PyVal) (now : Int) :
    Except String (SubmitResult2 × QuizManager2) :=
  if !qm.quiz_active then .error "No active quiz"
  else
    match qm.get_current_question with
    | Option.none => .error "No current question"
    | some q =>
      let is_correct := q.check_answer answer
      let points_earned := if is_correct then q.points else 0
      let qm1 := { qm with current_score := qm.current_score + points_earned }
      let result : SubmitResult2 :=
        { correct := is_correct, points_earned := points_earned,
          correct_answer := q.get_correct_answer,
          current_score := qm1.current_score }
      match qm1.next_question now with
      | .ok r => .ok (result, r.2)
      | .error e => .error e

/-! ## Derived runs and claim-side vocabulary -/

/-- A foreground sequence of `submit_answer` calls on the service
`QuizManager`: each list entry is the candidate answer paired with the
instant of the call.  Returns the final state. -/
def QuizManager.run_submits : QuizManager → List (PyVal × Int) → QuizManager
  | qm, [] => qm
  | qm, p :: rest => ((qm.submit_answer p.1 p.2).2).run_submits rest

/-- The result dictionaries returned by the same sequence of
`submit_answer` calls, in order. -/
def QuizManager.run_submits_results : QuizManager → List (PyVal × Int) → List SubmitResult
  | _, [] => []
  | qm, p :: rest =>
    (qm.submit_answer p.1 p.2).1 :: ((qm.submit_answer p.1 p.2).2).run_submits_results rest

/-- The sum of the point values of the questions answered correctly when
the given answers are submitted, in order, against the given questions:
the i-th answer is checked against the i-th question, a correct answer
contributes its question points, an incorrect answer contributes 0.
This is the claim-side reading of "sum of points of questions answered
correctly so far". -/
def score_of : List Question → List PyVal → Int
  | q :: qs, a :: rest => (if q.check_answer a then q.points else 0) + score_of qs rest
  | _, _ => 0

/-- Claim-side vocabulary: whether a candidate answer value is of the
type that matches the answer kind of a question of
`src/models/question.py` — a string for single-choice (`"mcq"`) and
free-text (`"short_answer"`), a boolean for `"true_false"`.  Used to
state the type-mismatch claim about `check_answer`. -/
def answer_kind_matches (q : Question) (candidate : PyVal) : Bool :=
  if q.question_type == "mcq" then
    match candidate with
    | .str _ => true
    | _ => false
  else if q.question_type == "true_false" then
    match candidate with
    | .bool _ => true
    | _ => false
  else if q.question_type == "short_answer" then
    match candidate with
    | .str _ => true
    | _ => false
  else false

/-! ## Timer lemmas -/

/-- On a running, unexpired, started timer, `get_remaining_time` returns
`max 0 (deadline - now)`. -/
lemma Timer.grt_fst (t : Timer) (e now : Int) (hr : t.is_running = true)
    (hx : t.is_expired = false) (he : t.end_time = some e) :
    (t.get_remaining_time now).1 = max 0 (e - now) := by
  simp only [Timer.get_remaining_time, hr, hx, he, Bool.not_true, Bool.or_self]
  split
  · simp_all
  · split <;> rfl

/-- On a running, unexpired, started timer strictly before its deadline,
`get_remaining_time` only refreshes the cached remaining time. -/
lemma Timer.grt_before (t : Timer) (e now : Int) (hr : t.is_running = true)
    (hx : t.is_expired = false) (he : t.end_time = some e) (hnow : now < e) :
    t.get_remaining_time now = (e - now, { t with remaining_time := e - now }) := by
  have hmax : max 0 (e - now) = e - now := by omega
  simp only [Timer.get_remaining_time, hr, hx, he, Bool.not_true, Bool.or_self, hmax]
  have : (e - now == 0) = false := by simp; omega
  simp [this]

/-- Lemma: `is_time_up` (alias of `is_time_expired`) on a running, unexpired
timer strictly before its deadline: reports not expired and only
refreshes the cached remaining time. -/
lemma Timer.itu_before (t : Timer) (e now : Int) (hr : t.is_running = true)
    (hx : t.is_expired = false) (he : t.end_time = some e) (hnow : now < e) :
    t.is_time_up now = (false, { t with remaining_time := e - now }) := by
  simp only [Timer.is_time_up, Timer.is_time_expired, hx, hr, Bool.not_true,
    t.grt_before e now hr hx he hnow]
  have : (e - now == 0) = false := by simp; omega
  simp [this]

/-- Lemma: `get_remaining_time` on a stopped timer returns 0 and changes nothing. -/
lemma Timer.grt_stopped (t : Timer) (now : Int) (hr : t.is_running = false) :
    t.get_remaining_time now = (0, t) := by
  unfold Timer.get_remaining_time
  simp [hr]

/-- Lemma: `get_remaining_time` on an expired timer returns 0 and changes nothing. -/
lemma Timer.grt_expired (t : Timer) (now : Int) (hx : t.is_expired = true) :
    t.get_remaining_time now = (0, t) := by
  unfold Timer.get_remaining_time
  simp [hx]

/-- Lemma: `get_remaining_time` on a running timer with no recorded deadline
returns 0 and changes nothing. -/
lemma Timer.grt_nodeadline (t : Timer) (now : Int) (hr : t.is_running = true)
    (hx : t.is_expired = false) (he : t.end_time = none) :
    t.get_remaining_time now = (0, t) := by
  unfold Timer.get_remaining_time
  simp [hr, hx, he]

/-- Lemma: `get_remaining_time` on a running, unexpired timer at or past its
deadline returns 0 and latches the expired flag. -/
lemma Timer.grt_after (t : Timer) (e now : Int) (hr : t.is_running = true)
    (hx : t.is_expired = false) (he : t.end_time = some e) (hle : e ≤ now) :
    t.get_remaining_time now
      = (0, { t with remaining_time := 0, is_expired := true, is_running := false }) := by
  have hmax : max 0 (e - now) = 0 := max_eq_left (by omega)
  unfold Timer.get_remaining_time
  simp [hr, hx, he, hmax]

/-- C7: for every running Timer, `get_remaining_time()` equals
`max(0, deadline - now)`; it is non-increasing over successive calls,
never negative, and is 0 whenever the configured duration has elapsed
since start.  (Time is modelled at whole-second granularity.) -/
theorem C7_timer_remaining_time :
    (∀ (t : Timer) (e now : Int), t.is_running = true → t.is_expired = false →
        t.end_time = some e → (t.get_remaining_time now).1 = max 0 (e - now))
    ∧ (∀ (t : Timer) (now1 now2 : Int), now1 ≤ now2 →
        ((t.get_remaining_time now1).2.get_remaining_time now2).1
          ≤ (t.get_remaining_time now1).1)
    ∧ (∀ (t : Timer) (now : Int), 0 ≤ (t.get_remaining_time now).1)
    ∧ (∀ (t : Timer) (now0 now : Int), t.is_running = false →
        now0 + t.duration ≤ now → ((t.start now0).get_remaining_time now).1 = 0) := by
  have nonneg : ∀ (t : Timer) (now : Int), 0 ≤ (t.get_remaining_time now).1 := by
    intro t now
    unfold Timer.get_remaining_time
    split
    · exact le_refl 0
    · split
      · exact le_refl 0
      · dsimp only
        split <;> exact le_max_left _ _
  refine ⟨fun t e now hr hx he => t.grt_fst e now hr hx he, ?_, nonneg, ?_⟩
  · intro t now1 now2 h12
    by_cases hr : t.is_running = true
    · by_cases hx : t.is_expired = true
      · simp [t.grt_expired now1 hx, t.grt_expired now2 hx]
      · have hx' : t.is_expired = false := by simp at hx; exact hx
        cases he : t.end_time with
        | none =>
          simp [t.grt_nodeadline now1 hr hx' he, t.grt_nodeadline now2 hr hx' he]
        | some e =>
          rcases le_or_lt e now1 with hle | hlt
          · rw [t.grt_after e now1 hr hx' he hle]
            simp [Timer.grt_expired
              { t with remaining_time := 0, is_expired := true, is_running := false }
              now2 rfl]
          · rw [t.grt_before e now1 hr hx' he hlt]
            have hval := Timer.grt_fst { t with remaining_time := e - now1 } e now2 hr hx' he
            simp only [Prod.snd, Prod.fst, hval]
            rcases le_total (e - now2) 0 with h' | h'
            · rw [max_eq_left h']; omega
            · rw [max_eq_right h']; omega
    · have hr' : t.is_running = false := by simp at hr; exact hr
      simp [t.grt_stopped now1 hr', t.grt_stopped now2 hr']
  · intro t now0 now hr hle
    have hs : t.start now0
        = { t with start_time := some now0, end_time := some (now0 + t.duration),
                   is_running := true, is_expired := false } := by
      unfold Timer.start
      simp [hr]
    rw [hs, Timer.grt_after _ (now0 + t.duration) now rfl rfl rfl hle]

/-- Witness for C7 at a concrete timer: duration 10 started at 0, queried
at instants 3, 5, 4 and 12. -/
theorem C7_witness :
    (((Timer.new 10).start 0).get_remaining_time 3).1 = max 0 (10 - 3)
    ∧ ((((Timer.new 10).start 0).get_remaining_time 3).2.get_remaining_time 5).1
        ≤ (((Timer.new 10).start 0).get_remaining_time 3).1
    ∧ 0 ≤ (((Timer.new 10).start 0).get_remaining_time 4).1
    ∧ (((Timer.new 10).start 0).get_remaining_time 12).1 = 0 := by
  refine ⟨?_, ?_, ?_, ?_⟩
  · exact C7_timer_remaining_time.1 _ 10 3 (by decide) (by decide) (by decide)
  · exact C7_timer_remaining_time.2.1 _ 3 5 (by decide)
  · exact C7_timer_remaining_time.2.2.1 _ 4
  · exact C7_timer_remaining_time.2.2.2 (Timer.new 10) 0 12 (by decide) (by decide)

/-! ## Question construction validation (C8) -/

/-- C8: construction of a `Question` fails (with a `ValueError` whose
message names the violated rule, as spelled out in
`Question.validate_question`) exactly when one of the listed rules is
violated — blank prompt, negative points, mcq with fewer than 2 options
or a correct answer not among the options, boolean kind with a
non-boolean correct answer or options supplied, free-text kind with a
non-string correct answer or options supplied, or an unrecognized answer
kind — and succeeds otherwise.  The constructor runs the validation, so a
violation fails at construction time. -/
theorem C8_construction_validation (q : Question) :
    q.validate_question = .ok () ↔
      ¬(pyStrip q.text = ""
        ∨ q.points < 0
        ∨ (q.question_type = "mcq"
            ∧ (q.options.length < 2 ∨ pyMem q.correct_answer q.options = false))
        ∨ (q.question_type = "true_false"
            ∧ (q.correct_answer.is_bool = false ∨ q.options ≠ []))
        ∨ (q.question_type = "short_answer"
            ∧ (q.correct_answer.is_str = false ∨ q.options ≠ []))
        ∨ (q.question_type ≠ "mcq" ∧ q.question_type ≠ "true_false"
            ∧ q.question_type ≠ "short_answer")) := by
  unfold Question.validate_question
  split_ifs <;> simp_all

/-! ## Answer checking (C9, C10) -/

/-- Python `==` is reflexive on the modelled values. -/
lemma pyEq_refl (v : PyVal) : pyEq v v = true := by
  cases v <;> simp [pyEq]

/-- A value that `==`-matches some member of a list of option strings is
itself a string. -/
lemma pyMem_is_str (v : PyVal) (opts : List String) (h : pyMem v opts = true) :
    v.is_str = true := by
  unfold pyMem at h
  rw [List.any_eq_true] at h
  obtain ⟨o, _, ho⟩ := h
  cases v <;> simp [pyEq, PyVal.is_str] at ho ⊢

/-- A validly constructed `Question` has a recognized answer kind, and
its correct answer is a string for `"mcq"` and `"short_answer"` and a
boolean for `"true_false"`. -/
lemma validate_ok_cases (q : Question) (hv : q.validate_question = .ok ()) :
    (q.question_type = "mcq" ∧ ∃ s, q.correct_answer = .str s)
    ∨ (q.question_type = "true_false" ∧ ∃ b, q.correct_answer = .bool b)
    ∨ (q.question_type = "short_answer" ∧ ∃ s, q.correct_answer = .str s) := by
  unfold Question.validate_question at hv
  by_cases h1 : (pyStrip q.text == "") = true
  · rw [if_pos h1] at hv
    exact Except.noConfusion hv
  · rw [if_neg h1] at hv
    by_cases h2 : q.points < 0
    · rw [if_pos h2] at hv
      exact Except.noConfusion hv
    · rw [if_neg h2] at hv
      by_cases h3 : (q.question_type == "mcq") = true
      · rw [if_pos h3] at hv
        refine Or.inl ⟨by simpa using h3, ?_⟩
        by_cases h4 : q.options.isEmpty = true
        · rw [if_pos h4] at hv
          exact Except.noConfusion hv
        · rw [if_neg h4] at hv
          by_cases h5 : q.options.length < 2
          · rw [if_pos h5] at hv
            exact Except.noConfusion hv
          · rw [if_neg h5] at hv
            by_cases h6 : (!pyMem q.correct_answer q.options) = true
            · rw [if_pos h6] at hv
              exact Except.noConfusion hv
            · have hm : pyMem q.correct_answer q.options = true := by
                simpa using h6
              have hs := pyMem_is_str _ _ hm
              cases hc : q.correct_answer <;> simp_all [PyVal.is_str]
      · rw [if_neg h3] at hv
        by_cases h7 : (q.question_type == "true_false") = true
        · rw [if_pos h7] at hv
          refine Or.inr (Or.inl ⟨by simpa using h7, ?_⟩)
          by_cases h8 : (!q.correct_answer.is_bool) = true
          · rw [if_pos h8] at hv
            exact Except.noConfusion hv
          · have hb : q.correct_answer.is_bool = true := by simpa using h8
            cases hc : q.correct_answer <;> simp_all [PyVal.is_bool]
        · rw [if_neg h7] at hv
          by_cases h9 : (q.question_type == "short_answer") = true
          · rw [if_pos h9] at hv
            refine Or.inr (Or.inr ⟨by simpa using h9, ?_⟩)
            by_cases h10 : (!q.correct_answer.is_str) = true
            · rw [if_pos h10] at hv
              exact Except.noConfusion hv
            · have hs : q.correct_answer.is_str = true := by simpa using h10
              cases hc : q.correct_answer <;> simp_all [PyVal.is_str]
          · rw [if_neg h9] at hv
            exact Except.noConfusion hv

/-- C10: for every validly constructed Question of any answer kind,
`check_answer(get_correct_answer())` returns true; the same holds for
every question object of the `src/quiz/questions.py` hierarchy. -/
theorem C10_check_correct_answer :
    (∀ q : Question, q.validate_question = .ok () →
        q.check_answer q.get_correct_answer = true)
    ∧ (∀ q : QQuestion, q.check_answer q.get_correct_answer = true) := by
  constructor
  · intro q _hv
    unfold Question.check_answer Question.get_correct_answer
    split_ifs
    · exact pyEq_refl _
    · exact pyEq_refl _
    · cases q.correct_answer <;> simp [pyEq]
    · exact pyEq_refl _
  · intro q
    cases q <;> simp [QQuestion.check_answer, QQuestion.get_correct_answer, pyEq]

/-- Witness for C10 at a concrete free-text question. -/
theorem C10_witness :
    ({ text := "Capital of France?", question_type := "short_answer",
       correct_answer := .str "Paris", points := 2, options := [],
       explanation := none } : Question).validate_question = .ok ()
    ∧ ({ text := "Capital of France?", question_type := "short_answer",
         correct_answer := .str "Paris", points := 2, options := [],
         explanation := none } : Question).check_answer
        (({ text := "Capital of France?", question_type := "short_answer",
            correct_answer := .str "Paris", points := 2, options := [],
            explanation := none } : Question).get_correct_answer) = true :=
  ⟨rfl, C10_check_correct_answer.1 _ rfl⟩

/-- Counterexample for C9: a validly constructed boolean question with
correct answer `True`, given the type-mismatched candidate integer `1`,
is judged CORRECT by `check_answer` (Python evaluates `1 == True` to
`True`), not incorrect as the claim states. -/
theorem C9_counterexample :
    ({ text := "Is one true?", question_type := "true_false",
       correct_answer := .bool true, points := 1, options := [],
       explanation := none } : Question).validate_question = .ok ()
    ∧ answer_kind_matches
        { text := "Is one true?", question_type := "true_false",
          correct_answer := .bool true, points := 1, options := [],
          explanation := none } (.int 1) = false
    ∧ ({ text := "Is one true?", question_type := "true_false",
         correct_answer := .bool true, points := 1, options := [],
         explanation := none } : Question).check_answer (.int 1) = true := by
  exact ⟨rfl, rfl, rfl⟩

/-- C9 amended: for a valid Question and a candidate whose type does not
match the answer kind, `check_answer` never raises (it is total on the
modelled values) and returns False, EXCEPT that on a boolean question
Python identifies `True` with `1` and `False` with `0`, so the integer
candidate equal to the boolean correct answer under that coercion is
judged correct. -/
theorem C9_type_mismatch_amended (q : Question) (c : PyVal)
    (hv : q.validate_question = .ok ())
    (hm : answer_kind_matches q c = false) :
    q.check_answer c = true ↔
      (q.question_type = "true_false"
        ∧ ∃ b, q.correct_answer = .bool b ∧ c = .int (if b then 1 else 0)) := by
  rcases validate_ok_cases q hv with ⟨ht, s, hc⟩ | ⟨ht, b, hc⟩ | ⟨ht, s, hc⟩
  · unfold Question.check_answer
    unfold answer_kind_matches at hm
    cases c <;> simp_all [pyEq]
  · unfold Question.check_answer
    unfold answer_kind_matches at hm
    cases c with
    | str u => simp_all [pyEq]
    | bool u => simp_all [PyVal.is_bool]
    | int n => simp_all [pyEq]
    | none => simp_all [pyEq]
  · unfold Question.check_answer
    unfold answer_kind_matches at hm
    cases c <;> simp_all [pyEq]

/-- Witness for the amended C9: on a boolean question with correct
answer `True`, the integer candidate `1` is judged correct. -/
theorem C9_witness :
    ({ text := "Is one true?", question_type := "true_false",
       correct_answer := .bool true, points := 1, options := [],
       explanation := none } : Question).check_answer (.int 1) = true :=
  (C9_type_mismatch_amended
      { text := "Is one true?", question_type := "true_false",
        correct_answer := .bool true, points := 1, options := [],
        explanation := none } (.int 1) (by decide) (by decide)).mpr
    ⟨rfl, true, rfl, rfl⟩

/-! ## Notification delivery (C3) -/

/-- Counterexample for C3: with two subscribers, the first of which
throws, the payload is delivered only to subscriber 0 — subscriber 1,
which comes after the thrower in subscription order, never receives it.
This holds in both `notify` implementations (`src/patterns/observer.py`
caught-and-logged variant and `src/quiz/observer.py` propagating
variant), contradicting the claim that a throwing subscriber does not
prevent delivery to subsequent subscribers. -/
theorem C3_counterexample :
    notifyPatterns [(0, fun _ => Except.error 7), (1, fun _ => Except.ok ())] (42 : Nat)
      = [0]
    ∧ (1 : Nat) ∉ notifyPatterns
        [(0, fun _ => Except.error 7), (1, fun _ => Except.ok ())] (42 : Nat)
    ∧ notifyQuiz [(0, fun _ => Except.error 7), (1, fun _ => Except.ok ())] (42 : Nat)
      = ([0], some 7) := by
  refine ⟨rfl, ?_, rfl⟩
  intro h
  simp [notifyPatterns] at h

/-- C3 amended: `publish(payload)` invokes subscribers synchronously in
subscription order; when no subscriber throws, every current subscriber
receives the payload (and the `src/quiz/observer.py` variant raises
nothing).  When a subscriber throws, delivery stops with the thrower:
the subscribers before it and the thrower itself are invoked, the
subscribers after it are NOT; `src/patterns/observer.py` catches and
logs the exception while `src/quiz/observer.py` lets it propagate. -/
theorem C3_notify_amended {α ε : Type} :
    (∀ (obs : List (Nat × (α → Except ε Unit))) (p : α),
        (∀ x ∈ obs, (x.2 p).isOk = true) →
        notifyPatterns obs p = obs.map Prod.fst
          ∧ notifyQuiz obs p = (obs.map Prod.fst, Option.none))
    ∧ (∀ (pre post : List (Nat × (α → Except ε Unit))) (i : Nat)
          (f : α → Except ε Unit) (p : α) (e : ε),
        (∀ x ∈ pre, (x.2 p).isOk = true) → f p = .error e →
        notifyPatterns (pre ++ (i, f) :: post) p = pre.map Prod.fst ++ [i]
          ∧ notifyQuiz (pre ++ (i, f) :: post) p = (pre.map Prod.fst ++ [i], some e)) := by
  constructor
  · intro obs p h
    induction obs with
    | nil => exact ⟨rfl, rfl⟩
    | cons x rest ih =>
      obtain ⟨i, f⟩ := x
      have hx : (f p).isOk = true := h (i, f) (List.mem_cons_self _ _)
      have hrest := ih fun y hy => h y (List.mem_cons_of_mem _ hy)
      cases hf : f p with
      | error e => rw [hf] at hx; simp [Except.isOk, Except.toBool] at hx
      | ok v =>
        simp only [notifyPatterns, notifyQuiz, hf]
        exact ⟨by rw [hrest.1]; rfl, by rw [hrest.2]; rfl⟩
  · intro pre post i f p e hpre hf
    induction pre with
    | nil => simp [notifyPatterns, notifyQuiz, hf]
    | cons x rest ih =>
      obtain ⟨j, g⟩ := x
      have hx : (g p).isOk = true := hpre (j, g) (List.mem_cons_self _ _)
      have hrest := ih fun y hy => hpre y (List.mem_cons_of_mem _ hy)
      cases hg : g p with
      | error e2 => rw [hg] at hx; simp [Except.isOk, Except.toBool] at hx
      | ok v =>
        simp only [List.cons_append, notifyPatterns, notifyQuiz, hg]
        exact ⟨by simp [List.append_eq, hrest.1],
               by simp [List.append_eq, hrest.2]⟩

/-- Witness for the amended C3: three subscribers, the middle one
throwing — the first two are invoked, the third is not; and with no
thrower all subscribers are notified in order. -/
theorem C3_witness :
    (notifyPatterns
          ([(0, fun _ => Except.ok ()), (2, fun _ => Except.ok ())]
            : List (Nat × (Nat → Except Nat Unit))) (5 : Nat)
        = [0, 2]
      ∧ notifyQuiz
          ([(0, fun _ => Except.ok ()), (2, fun _ => Except.ok ())]
            : List (Nat × (Nat → Except Nat Unit))) (5 : Nat)
        = ([0, 2], Option.none))
    ∧ (notifyPatterns
          [(0, fun _ => Except.ok ()), (1, fun _ => Except.error 3),
           (2, fun _ => Except.ok ())] (5 : Nat) = [0, 1]
      ∧ notifyQuiz
          [(0, fun _ => Except.ok ()), (1, fun _ => Except.error 3),
           (2, fun _ => Except.ok ())] (5 : Nat) = ([0, 1], some 3)) := by
  constructor
  · have h := C3_notify_amended.1
      ([(0, fun _ => Except.ok ()), (2, fun _ => Except.ok ())]
        : List (Nat × (Nat → Except Nat Unit))) (5 : Nat)
      (by
        intro x hx
        simp only [List.mem_cons, List.not_mem_nil, or_false] at hx
        rcases hx with rfl | rfl <;> rfl)
    simpa using h
  · have h := C3_notify_amended.2
      [((0 : Nat), fun _ => Except.ok ())] [(2, fun _ => Except.ok ())]
      1 (fun _ => Except.error 3) (5 : Nat) 3
      (by
        rintro x hx
        rw [List.mem_singleton] at hx
        subst hx
        rfl)
      rfl
    simpa using h

/-! ## Precondition failure of submit_answer (C2) -/

/-- C2, evaluated at the failing input: on a freshly constructed manager
(no questions loaded, never started) `submit_answer` raises
`ValueError("No active quiz")` in both implementations, but in
`src/services/quiz_manager.py` the blanket `except` inside
`submit_answer` catches it and returns an error dictionary — the caller
sees a normal return, not a raised error — while in
`src/quiz/quiz_manager.py` the error propagates to the caller.  The
services behavior contradicts the claim (and the repository tests
`test_submit_answer_no_active_quiz_raises_error`, which expect the
raise). -/
theorem C2_inactive_submit_behavior :
    QuizManager.new.submit_answer (.str "test") 0
      = (.caught "No active quiz", QuizManager.new)
    ∧ QuizManager2.new.submit_answer (.str "test") 0 = .error "No active quiz" :=
  ⟨rfl, rfl⟩

/-! ## Expired timer observed by submit_answer and get_quiz_progress (C1) -/

/-- C1: on an active session whose Timer reports expired at the instant
of the call, `submit_answer` ends the session (active flag cleared) and
returns the time-up result instead of scoring — no points are scored and
the index does not advance — and `get_quiz_progress` returns the
inactive indicator and marks the session inactive. -/
theorem C1_expired_observed (qm : QuizManager) (t : Timer) (a : PyVal) (now : Int)
    (hA : qm.quiz_active = true) (hT : qm.timer = some t)
    (hE : (t.is_time_expired now).1 = true) :
    (qm.submit_answer a now).1 = .timeUp
    ∧ (qm.submit_answer a now).2.quiz_active = false
    ∧ (qm.submit_answer a now).2.current_question_index = qm.current_question_index
    ∧ (qm.submit_answer a now).2.user_score = qm.user_score
    ∧ (qm.get_quiz_progress now).1 = .inactive (some "Time is up")
    ∧ (qm.get_quiz_progress now).2.quiz_active = false := by
  have hsub : qm.submit_answer a now
      = (.timeUp,
         (({ qm with timer := some (t.is_time_expired now).2 } : QuizManager).end_quiz now).2) := by
    unfold QuizManager.submit_answer
    simp [hA, hT, Timer.is_time_up, hE]
  have hend : (({ qm with timer := some (t.is_time_expired now).2 } : QuizManager).end_quiz now).2
      = { qm with quiz_active := false,
                  timer := (some (t.is_time_expired now).2).map Timer.stop,
                  current_user := qm.current_user.map User.complete_quiz } := by
    unfold QuizManager.end_quiz
    simp [hA]
  have hprog : qm.get_quiz_progress now
      = (.inactive (some "Time is up"),
         { qm with timer := some (t.is_time_expired now).2, quiz_active := false }) := by
    unfold QuizManager.get_quiz_progress
    simp [hA, hT, hE]
  refine ⟨by rw [hsub], by rw [hsub, hend], by rw [hsub, hend], ?_, by rw [hprog], by rw [hprog]⟩
  rw [hsub, hend]
  unfold QuizManager.user_score
  cases qm.current_user <;> simp [User.complete_quiz]

/-- Witness for C1: a concrete active session holding an expired timer;
submitting at instant 10 returns the time-up result and ends the
session, and the progress query reports inactive. -/
theorem C1_witness :
    let tE : Timer := { duration := 5, remaining_time := 0, start_time := some 0,
                        end_time := some 5, is_running := false, is_expired := true }
    let qmW : QuizManager :=
      { questions := [{ text := "Q?", question_type := "true_false",
                        correct_answer := .bool true, points := 1, options := [],
                        explanation := none }],
        current_question_index := 0, current_user := some (User.new "alice"),
        timer := some tE, quiz_active := true, quiz_duration := 5 }
    (qmW.submit_answer (.str "x") 10).1 = .timeUp
    ∧ (qmW.submit_answer (.str "x") 10).2.quiz_active = false
    ∧ (qmW.submit_answer (.str "x") 10).2.current_question_index = qmW.current_question_index
    ∧ (qmW.submit_answer (.str "x") 10).2.user_score = qmW.user_score
    ∧ (qmW.get_quiz_progress 10).1 = .inactive (some "Time is up")
    ∧ (qmW.get_quiz_progress 10).2.quiz_active = false := by
  exact C1_expired_observed _ _ (.str "x") 10 rfl rfl (by decide)

/-! ## Idempotence of end_quiz (C4) -/

/-- Counterexample for C4: the claim quantifies over both QuizManager
implementations (its sources cite both files), but in
`src/quiz/quiz_manager.py` a second `end_quiz` on a session that was
just ended does not return a summary — it raises
`ValueError("No active quiz to end")`. -/
theorem C4_counterexample :
    ((QuizManager2.new.load_questions [.trueFalse "Q" true 1]).bind fun qm =>
      (qm.start_quiz "alice" (some 60) 0).bind fun qm1 =>
      qm1.end_quiz 5).isOk = true
    ∧ ((QuizManager2.new.load_questions [.trueFalse "Q" true 1]).bind fun qm =>
        (qm.start_quiz "alice" (some 60) 0).bind fun qm1 =>
        (qm1.end_quiz 5).bind fun r1 =>
        r1.2.end_quiz 6)
      = .error "No active quiz to end" :=
  ⟨rfl, rfl⟩

/-- C4 amended: in `src/services/quiz_manager.py`, `end_quiz` is
idempotent as claimed — a second call returns a summary with the same
`final_score`, `total_questions` and `answered_questions` and leaves the
state untouched (no side effects).  In `src/quiz/quiz_manager.py`, a
second `end_quiz` raises `ValueError("No active quiz to end")` instead
of returning a summary. -/
theorem C4_end_idempotent_amended :
    (∀ (qm : QuizManager) (now1 now2 : Int),
        ((qm.end_quiz now1).2.end_quiz now2).1.final_score
            = (qm.end_quiz now1).1.final_score
        ∧ ((qm.end_quiz now1).2.end_quiz now2).1.total_questions
            = (qm.end_quiz now1).1.total_questions
        ∧ ((qm.end_quiz now1).2.end_quiz now2).1.answered_questions
            = (qm.end_quiz now1).1.answered_questions
        ∧ ((qm.end_quiz now1).2.end_quiz now2).2 = (qm.end_quiz now1).2)
    ∧ (∀ (qm : QuizManager2) (now1 now2 : Int) (r1 : QuizResults2 × QuizManager2),
        qm.end_quiz now1 = .ok r1 →
        r1.2.end_quiz now2 = .error "No active quiz to end") := by
  constructor
  · intro qm now1 now2
    have h1 : (qm.end_quiz now1).2.quiz_active = false := by
      unfold QuizManager.end_quiz
      by_cases h : qm.quiz_active <;> simp [h]
    have h2 : (qm.end_quiz now1).2.end_quiz now2
        = (((qm.end_quiz now1).2).results_from_state now2, (qm.end_quiz now1).2) := by
      generalize (qm.end_quiz now1).2 = s at h1 ⊢
      unfold QuizManager.end_quiz
      simp [h1]
    have h3 : (qm.end_quiz now1).1 = ((qm.end_quiz now1).2).results_from_state now1 := by
      unfold QuizManager.end_quiz
      by_cases h : qm.quiz_active <;> simp [h]
    rw [h2, h3]
    exact ⟨rfl, rfl, rfl, rfl⟩
  · intro qm now1 now2 r1 h
    unfold QuizManager2.end_quiz at h
    by_cases hq : qm.quiz_active
    · simp [hq] at h
      have hA : r1.2.quiz_active = false := by
        rw [← h]
      unfold QuizManager2.end_quiz
      simp [hA]
    · simp [hq] at h

/-- Witness for the amended C4: a second `end_quiz` on the service
manager repeats the summary of the first with no state change, and a
second `end_quiz` on a just-ended `src/quiz/quiz_manager.py` session
raises. -/
theorem C4_witness :
    let qm2 : QuizManager2 :=
      { questions := [.trueFalse "Q" true 1], current_question_index := 1,
        current_user := some "alice", quiz_active := true, quiz_duration := 60,
        start_time := some 0, current_score := 1 }
    (((QuizManager.new.end_quiz 0).2.end_quiz 1).1.final_score
        = (QuizManager.new.end_quiz 0).1.final_score
      ∧ ((QuizManager.new.end_quiz 0).2.end_quiz 1).2 = (QuizManager.new.end_quiz 0).2)
    ∧ ({ qm2 with quiz_active := false } : QuizManager2).end_quiz 6
        = .error "No active quiz to end" := by
  refine ⟨⟨(C4_end_idempotent_amended.1 QuizManager.new 0 1).1,
           (C4_end_idempotent_amended.1 QuizManager.new 0 1).2.2.2⟩, ?_⟩
  exact C4_end_idempotent_amended.2
    { questions := [.trueFalse "Q" true 1], current_question_index := 1,
      current_user := some "alice", quiz_active := true, quiz_duration := 60,
      start_time := some 0, current_score := 1 } 5 6
    ({ user_name := some "alice", final_score := 1, total_questions := 1,
       answered_questions := 1, elapsed_time := 5 },
     { questions := [.trueFalse "Q" true 1], current_question_index := 1,
       current_user := some "alice", quiz_active := false, quiz_duration := 60,
       start_time := some 0, current_score := 1 }) (by decide)

/-! ## Step lemmas for submit_answer runs (C5, C6) -/

/-- Lemma: `submit_answer` on an inactive session: the raised error is caught
and nothing changes. -/
lemma submit_inactive (qm : QuizManager) (a : PyVal) (now : Int)
    (h : qm.quiz_active = false) :
    qm.submit_answer a now = (.caught "No active quiz", qm) := by
  unfold QuizManager.submit_answer
  simp [h]

/-- Lemma: `get_current_question` with the index out of range. -/
lemma gcq_none (qm : QuizManager) (h : qm.questions.length ≤ qm.current_question_index) :
    qm.get_current_question = none := by
  unfold QuizManager.get_current_question
  simp [h]

/-- Lemma: `get_current_question` with the index in range. -/
lemma gcq_some (qm : QuizManager) (h : qm.current_question_index < qm.questions.length) :
    qm.get_current_question = some qm.questions[qm.current_question_index] := by
  unfold QuizManager.get_current_question
  have h1 : ¬ (qm.questions.length ≤ qm.current_question_index) := Nat.not_le.mpr h
  have h2 : qm.questions.isEmpty = false := by
    cases hq : qm.questions
    · rw [hq] at h
      simp at h
    · simp [hq]
  simp [h1, h2, List.getElem?_eq_getElem h]

/-- On an active session with a running, unexpired timer strictly before
its deadline, `submit_answer` reduces to the scoring tail, with the
timer remaining time refreshed. -/
lemma submit_active_to_core (qm : QuizManager) (t : Timer) (e : Int) (a : PyVal)
    (now : Int) (hA : qm.quiz_active = true) (hT : qm.timer = some t)
    (hrun : t.is_running = true) (hexp : t.is_expired = false)
    (hend : t.end_time = some e) (hnow : now < e) :
    qm.submit_answer a now
      = ({ qm with timer := some { t with remaining_time := e - now } }
          : QuizManager).submit_answer_core a now := by
  unfold QuizManager.submit_answer
  simp [hA, hT, Timer.itu_before t e now hrun hexp hend hnow]

/-- The scoring tail with no current question: the raised error is
caught, nothing changes. -/
lemma core_oob (qm : QuizManager) (a : PyVal) (now : Int)
    (h : qm.questions.length ≤ qm.current_question_index) :
    qm.submit_answer_core a now = (.caught "No current question", qm) := by
  unfold QuizManager.submit_answer_core
  rw [gcq_none qm h]

/-- The scoring tail on an in-range question with a user present and a
non-negative point value: scores the answer and advances. -/
lemma core_step (qm : QuizManager) (u : User) (a : PyVal) (now : Int)
    (hq : qm.current_question_index < qm.questions.length)
    (hu : qm.current_user = some u)
    (hp : 0 ≤ qm.questions[qm.current_question_index].points) :
    qm.submit_answer_core a now =
      ((.answered
          (qm.questions[qm.current_question_index].check_answer a)
          (if qm.questions[qm.current_question_index].check_answer a then
            qm.questions[qm.current_question_index].points else 0)
          qm.questions[qm.current_question_index].get_correct_answer
          qm.questions[qm.current_question_index].explanation
          (u.current_score
            + (if qm.questions[qm.current_question_index].check_answer a then
                qm.questions[qm.current_question_index].points else 0))),
        (({ qm with current_user := some ({ u with current_score := u.current_score
                  + (if qm.questions[qm.current_question_index].check_answer a then
                      qm.questions[qm.current_question_index].points else 0) }) }
           : QuizManager).next_question now).2) := by
  have hpe : ¬ ((if qm.questions[qm.current_question_index].check_answer a then
      qm.questions[qm.current_question_index].points else 0) < 0) := by
    split
    · omega
    · omega
  unfold QuizManager.submit_answer_core
  rw [gcq_some qm hq, hu]
  unfold User.add_points
  simp [hpe, QuizManager.user_score]

/-- Lemma: `next_question` when the incremented index reaches the end of the
question list: ends the quiz. -/
lemma next_end (qm : QuizManager) (now : Int) (hA : qm.quiz_active = true)
    (h : qm.questions.length ≤ qm.current_question_index + 1) :
    (qm.next_question now).2
      = { qm with current_question_index := qm.current_question_index + 1,
                  quiz_active := false, timer := qm.timer.map Timer.stop,
                  current_user := qm.current_user.map User.complete_quiz } := by
  unfold QuizManager.next_question QuizManager.end_quiz
  simp [h, hA]

/-- Lemma: `next_question` with questions remaining: just advances the index. -/
lemma next_cont (qm : QuizManager) (now : Int)
    (h : qm.current_question_index + 1 < qm.questions.length) :
    (qm.next_question now).2
      = { qm with current_question_index := qm.current_question_index + 1 } := by
  unfold QuizManager.next_question
  simp [Nat.not_le.mpr h]

/-- Lemma: `score_of` over an empty answer list is 0. -/
lemma score_of_nil (l : List Question) : score_of l [] = 0 := by
  cases l <;> rfl

/-- Lemma: `score_of` over an exhausted question list is 0. -/
lemma score_of_nil_left (as' : List PyVal) : score_of [] as' = 0 := by
  cases as' <;> rfl

/-- Main score invariant, by induction over the submission sequence:
starting from any state with a user present and (while active) a
running, unexpired timer whose deadline none of the submissions
reaches, the user score after the run exceeds the starting score by
exactly the points of the questions answered correctly. -/
lemma run_submits_score (subs : List (PyVal × Int)) :
    ∀ (qm : QuizManager) (t : Timer) (e : Int),
      qm.current_user.isSome = true →
      (qm.quiz_active = true →
        qm.timer = some t ∧ t.is_running = true ∧ t.is_expired = false
          ∧ t.end_time = some e) →
      (∀ p ∈ subs, p.2 < e) →
      (∀ q ∈ qm.questions, 0 ≤ q.points) →
      (qm.run_submits subs).user_score
        = qm.user_score
          + (if qm.quiz_active = true then
              score_of (qm.questions.drop qm.current_question_index) (subs.map Prod.fst)
            else 0) := by
  induction subs with
  | nil =>
    intro qm t e hu hAT htimes hpts
    by_cases hA : qm.quiz_active = true <;>
      simp [QuizManager.run_submits, hA, score_of_nil]
  | cons p rest ih =>
    intro qm t e hu hAT htimes hpts
    obtain ⟨a, tm⟩ := p
    have htm : tm < e := htimes (a, tm) (List.mem_cons_self _ _)
    have htimes' : ∀ x ∈ rest, x.2 < e := fun x hx => htimes x (List.mem_cons_of_mem _ hx)
    show ((qm.submit_answer a tm).2.run_submits rest).user_score = _
    by_cases hA : qm.quiz_active = true
    · obtain ⟨hT, hrun, hexp, hend⟩ := hAT hA
      rw [submit_active_to_core qm t e a tm hA hT hrun hexp hend htm]
      by_cases hq : qm.current_question_index < qm.questions.length
      · obtain ⟨u, hu'⟩ := Option.isSome_iff_exists.mp hu
        have hp : 0 ≤ qm.questions[qm.current_question_index].points := hpts _ (by
          rw [← List.get_eq_getElem qm.questions ⟨qm.current_question_index, hq⟩]
          exact List.get_mem _ _ _)
        rw [core_step
          ({ qm with timer := some { t with remaining_time := e - tm } }) u a tm hq hu' hp]
        dsimp only
        have hdrop : qm.questions.drop qm.current_question_index
            = qm.questions[qm.current_question_index]
              :: qm.questions.drop (qm.current_question_index + 1) :=
          List.drop_eq_getElem_cons hq
        by_cases hend2 : qm.questions.length ≤ qm.current_question_index + 1
        · rw [next_end
            ({ qm with timer := some { t with remaining_time := e - tm },
                       current_user := some ({ u with current_score := u.current_score
                         + (if qm.questions[qm.current_question_index].check_answer a then
                             qm.questions[qm.current_question_index].points else 0) }) })
            tm hA hend2]
          dsimp only
          rw [ih _ t e]
          · have hdrop2 : qm.questions.drop (qm.current_question_index + 1) = [] :=
              List.drop_eq_nil_of_le hend2
            simp [QuizManager.user_score, User.complete_quiz, hu', hA, hdrop, hdrop2,
              score_of, score_of_nil_left]
          · rfl
          · intro h
            exact nomatch h
          · exact htimes'
          · exact hpts
        · have hlt2 : qm.current_question_index + 1 < qm.questions.length :=
            Nat.lt_of_not_le hend2
          rw [next_cont
            ({ qm with timer := some { t with remaining_time := e - tm },
                       current_user := some ({ u with current_score := u.current_score
                         + (if qm.questions[qm.current_question_index].check_answer a then
                             qm.questions[qm.current_question_index].points else 0) }) })
            tm hlt2]
          dsimp only
          rw [ih _ { t with remaining_time := e - tm } e]
          · rw [hA, if_pos rfl, if_pos rfl, hdrop]
            simp [QuizManager.user_score, hu', score_of]
            omega
          · rfl
          · intro h
            exact ⟨rfl, hrun, hexp, hend⟩
          · exact htimes'
          · exact hpts
      · have hq' : qm.questions.length ≤ qm.current_question_index := Nat.not_lt.mp hq
        rw [core_oob ({ qm with timer := some { t with remaining_time := e - tm } }) a tm hq']
        dsimp only
        rw [ih _ { t with remaining_time := e - tm } e]
        · have hdrop : qm.questions.drop qm.current_question_index = [] :=
            List.drop_eq_nil_of_le hq'
          rw [hA, if_pos rfl, if_pos rfl, hdrop]
          simp [score_of_nil_left, QuizManager.user_score]
        · exact hu
        · intro h
          exact ⟨rfl, hrun, hexp, hend⟩
        · exact htimes'
        · exact hpts
    · have hA' : qm.quiz_active = false := by simpa using hA
      rw [submit_inactive qm a tm hA']
      dsimp only
      rw [ih qm t e hu hAT htimes' hpts]
      simp [hA']

/-- C5: in a session started via `load_questions` + `start_quiz`, after
any sequence of `submit_answer` calls made before the timer deadline,
the running score equals the sum of the point values of exactly the
questions answered correctly so far: an incorrect answer contributes 0,
a correct answer its question points, and nothing else changes the
score. -/
theorem C5_score_invariant (qs : List Question) (u : User) (d now0 : Int)
    (subs : List (PyVal × Int)) (qmL qm1 : QuizManager)
    (hload : QuizManager.new.load_questions qs = .ok qmL)
    (hstart : qmL.start_quiz u (some d) now0 = .ok qm1)
    (hd : ¬ d = 0)
    (htimes : ∀ p ∈ subs, p.2 < now0 + d)
    (hpts : ∀ q ∈ qs, 0 ≤ q.points) :
    (qm1.run_submits subs).user_score = score_of qs (subs.map Prod.fst) := by
  unfold QuizManager.load_questions at hload
  by_cases hE : qs.isEmpty
  · simp [hE] at hload
  · simp only [hE, Bool.false_eq_true, if_false, Except.ok.injEq] at hload
    subst hload
    unfold QuizManager.start_quiz at hstart
    simp only [hE, Bool.false_eq_true, if_false, Except.ok.injEq] at hstart
    have hd' : ((d == 0) = false) := by simp [hd]
    rw [if_neg (by simp [hd])] at hstart
    unfold Timer.new Timer.start at hstart
    simp only [Bool.false_eq_true, if_false, Except.ok.injEq] at hstart
    subst hstart
    have h := run_submits_score subs
      { QuizManager.new with
          questions := qs, current_question_index := 0,
          current_user := some u.start_new_quiz,
          timer := some { duration := d, remaining_time := d, start_time := some now0,
                          end_time := some (now0 + d), is_running := true,
                          is_expired := false },
          quiz_active := true, quiz_duration := d }
      { duration := d, remaining_time := d, start_time := some now0,
        end_time := some (now0 + d), is_running := true, is_expired := false }
      (now0 + d) rfl (fun _ => ⟨rfl, rfl, rfl, rfl⟩) htimes hpts
    rw [h]
    simp [QuizManager.user_score, User.start_new_quiz]

/-- Witness for C5: Scenario A of the specification — two questions
worth 10 and 5 points, a correct then a correct answer, score 15. -/
theorem C5_witness :
    (({ questions :=
          [{ text := "What is 2 plus 2?", question_type := "mcq",
             correct_answer := .str "4", points := 10, options := ["3", "4"],
             explanation := none },
           { text := "Is Python a language?", question_type := "true_false",
             correct_answer := .bool true, points := 5, options := [],
             explanation := none }],
        current_question_index := 0,
        current_user := some { name := "alice", current_score := 0, total_score := 0,
                               quizzes_taken := 0 },
        timer := some { duration := 60, remaining_time := 60, start_time := some 0,
                        end_time := some (0 + 60), is_running := true,
                        is_expired := false },
        quiz_active := true, quiz_duration := 60 } : QuizManager).run_submits
          [(.str "4", 1), (.bool true, 2)]).user_score
      = score_of
          [{ text := "What is 2 plus 2?", question_type := "mcq",
             correct_answer := .str "4", points := 10, options := ["3", "4"],
             explanation := none },
           { text := "Is Python a language?", question_type := "true_false",
             correct_answer := .bool true, points := 5, options := [],
             explanation := none }]
          [.str "4", .bool true] := by
  exact C5_score_invariant _ ⟨"alice", 0, 0, 0⟩ 60 0 _
    { QuizManager.new with questions :=
        [{ text := "What is 2 plus 2?", question_type := "mcq",
           correct_answer := .str "4", points := 10, options := ["3", "4"],
           explanation := none },
         { text := "Is Python a language?", question_type := "true_false",
           correct_answer := .bool true, points := 5, options := [],
           explanation := none }] } _
    rfl rfl (by decide) (by decide) (by decide)

/-- Completion invariant, by induction over the submission sequence: in
a state where the active flag agrees with "index in range", with a user
present, a healthy timer, and no more submissions than remaining
questions, every submission is scored (an `answered` result), the index
advances by one per submission, and the active flag ends up reflecting
whether questions remain. -/
lemma run_submits_complete (subs : List (PyVal × Int)) :
    ∀ (qm : QuizManager) (t : Timer) (e : Int),
      qm.quiz_active = decide (qm.current_question_index < qm.questions.length) →
      qm.current_user.isSome = true →
      (qm.quiz_active = true →
        qm.timer = some t ∧ t.is_running = true ∧ t.is_expired = false
          ∧ t.end_time = some e) →
      (∀ p ∈ subs, p.2 < e) →
      (∀ q ∈ qm.questions, 0 ≤ q.points) →
      qm.current_question_index + subs.length ≤ qm.questions.length →
      (qm.run_submits subs).questions = qm.questions
        ∧ (qm.run_submits subs).current_question_index
            = qm.current_question_index + subs.length
        ∧ (qm.run_submits subs).quiz_active
            = decide (qm.current_question_index + subs.length < qm.questions.length)
        ∧ ∀ r ∈ qm.run_submits_results subs,
            ∃ c pe ca ex cs, r = SubmitResult.answered c pe ca ex cs := by
  induction subs with
  | nil =>
    intro qm t e hInv hu hAT htimes hpts hlen
    refine ⟨rfl, rfl, ?_, ?_⟩
    · simpa using hInv
    · intro r hr
      exact absurd hr (List.not_mem_nil r)
  | cons p rest ih =>
    intro qm t e hInv hu hAT htimes hpts hlen
    obtain ⟨a, tm⟩ := p
    have htm : tm < e := htimes (a, tm) (List.mem_cons_self _ _)
    have htimes' : ∀ x ∈ rest, x.2 < e := fun x hx => htimes x (List.mem_cons_of_mem _ hx)
    have hq : qm.current_question_index < qm.questions.length := by
      have := hlen
      simp only [List.length_cons] at this
      omega
    have hA : qm.quiz_active = true := by
      rw [hInv]
      simpa using hq
    obtain ⟨hT, hrun, hexp, hend⟩ := hAT hA
    obtain ⟨u, hu'⟩ := Option.isSome_iff_exists.mp hu
    have hp : 0 ≤ qm.questions[qm.current_question_index].points := hpts _ (by
      rw [← List.get_eq_getElem qm.questions ⟨qm.current_question_index, hq⟩]
      exact List.get_mem _ _ _)
    have hsub : qm.submit_answer a tm
        = ({ qm with timer := some { t with remaining_time := e - tm } }
            : QuizManager).submit_answer_core a tm :=
      submit_active_to_core qm t e a tm hA hT hrun hexp hend htm
    have hcore := core_step
      ({ qm with timer := some { t with remaining_time := e - tm } }) u a tm hq hu' hp
    simp only [QuizManager.run_submits, QuizManager.run_submits_results]
    rw [hsub, hcore]
    dsimp only
    by_cases hend2 : qm.questions.length ≤ qm.current_question_index + 1
    · rw [next_end
        ({ qm with timer := some { t with remaining_time := e - tm },
                   current_user := some ({ u with current_score := u.current_score
                     + (if qm.questions[qm.current_question_index].check_answer a then
                         qm.questions[qm.current_question_index].points else 0) }) })
        tm hA hend2]
      dsimp only
      have hInvS : (false : Bool)
          = decide (qm.current_question_index + 1 < qm.questions.length) := by
        have hnl : ¬ (qm.current_question_index + 1 < qm.questions.length) :=
          Nat.not_lt.mpr hend2
        simp [hnl]
      have hlenS : (qm.current_question_index + 1) + rest.length ≤ qm.questions.length := by
        simp only [List.length_cons] at hlen
        omega
      have hrest := ih
        ({ qm with current_question_index := qm.current_question_index + 1,
                   quiz_active := false,
                   timer := (some ({ t with remaining_time := e - tm })).map Timer.stop,
                   current_user := (some ({ u with current_score := u.current_score
                     + (if qm.questions[qm.current_question_index].check_answer a then
                         qm.questions[qm.current_question_index].points else 0) })).map
                     User.complete_quiz })
        t e hInvS (by rfl) (by intro h; exact nomatch h) htimes' hpts hlenS
      refine ⟨hrest.1, ?_, ?_, ?_⟩
      · rw [hrest.2.1]
        simp [List.length_cons]
        omega
      · rw [hrest.2.2.1]
        simp [List.length_cons]
        omega
      · intro r hr
        rcases List.mem_cons.mp hr with hr1 | hr2
        · exact ⟨_, _, _, _, _, hr1⟩
        · exact hrest.2.2.2 r hr2
    · have hlt2 : qm.current_question_index + 1 < qm.questions.length :=
        Nat.lt_of_not_le hend2
      rw [next_cont
        ({ qm with timer := some { t with remaining_time := e - tm },
                   current_user := some ({ u with current_score := u.current_score
                     + (if qm.questions[qm.current_question_index].check_answer a then
                         qm.questions[qm.current_question_index].points else 0) }) })
        tm hlt2]
      dsimp only
      have hInvS : qm.quiz_active
          = decide (qm.current_question_index + 1 < qm.questions.length) := by
        rw [hA]
        simp [hlt2]
      have hlenS : (qm.current_question_index + 1) + rest.length ≤ qm.questions.length := by
        simp only [List.length_cons] at hlen
        omega
      have hrest := ih
        ({ qm with current_question_index := qm.current_question_index + 1,
                   timer := some ({ t with remaining_time := e - tm }),
                   current_user := some ({ u with current_score := u.current_score
                     + (if qm.questions[qm.current_question_index].check_answer a then
                         qm.questions[qm.current_question_index].points else 0) }) })
        ({ t with remaining_time := e - tm }) e hInvS
        (by rfl) (by intro h; exact ⟨rfl, hrun, hexp, hend⟩) htimes' hpts hlenS
      refine ⟨hrest.1, ?_, ?_, ?_⟩
      · rw [hrest.2.1]
        simp [List.length_cons]
        omega
      · rw [hrest.2.2.1]
        simp [List.length_cons]
        omega
      · intro r hr
        rcases List.mem_cons.mp hr with hr1 | hr2
        · exact ⟨_, _, _, _, _, hr1⟩
        · exact hrest.2.2.2 r hr2

/-- C6: in a session with N loaded questions started with a fresh
(non-expired) timer, after exactly N `submit_answer` calls — all of them
successful, i.e. each returns a scored `answered` result — the session
is inactive (the Nth submission ended it as a side effect), and the
resulting summary reports `answered_questions = N = total_questions`. -/
theorem C6_full_run_completes (qs : List Question) (u : User) (d now0 nowEnd : Int)
    (subs : List (PyVal × Int)) (qmL qm1 : QuizManager)
    (hload : QuizManager.new.load_questions qs = .ok qmL)
    (hstart : qmL.start_quiz u (some d) now0 = .ok qm1)
    (hd : ¬ d = 0)
    (hN : subs.length = qs.length)
    (htimes : ∀ p ∈ subs, p.2 < now0 + d)
    (hpts : ∀ q ∈ qs, 0 ≤ q.points) :
    (∀ r ∈ qm1.run_submits_results subs,
        ∃ c pe ca ex cs, r = SubmitResult.answered c pe ca ex cs)
    ∧ (qm1.run_submits subs).quiz_active = false
    ∧ ((qm1.run_submits subs).end_quiz nowEnd).1.answered_questions = qs.length
    ∧ ((qm1.run_submits subs).end_quiz nowEnd).1.total_questions = qs.length := by
  unfold QuizManager.load_questions at hload
  by_cases hE : qs.isEmpty
  · simp [hE] at hload
  · simp only [hE, Bool.false_eq_true, if_false, Except.ok.injEq] at hload
    subst hload
    unfold QuizManager.start_quiz at hstart
    simp only [hE, Bool.false_eq_true, if_false, Except.ok.injEq] at hstart
    rw [if_neg (by simp [hd])] at hstart
    unfold Timer.new Timer.start at hstart
    simp only [Bool.false_eq_true, if_false, Except.ok.injEq] at hstart
    subst hstart
    have hpos : 0 < qs.length := by
      cases hq : qs with
      | nil =>
        rw [hq] at hE
        simp at hE
      | cons h t => simp
    set Q : QuizManager := { QuizManager.new with
        questions := qs, current_question_index := 0,
        current_user := some u.start_new_quiz,
        timer := some { duration := d, remaining_time := d, start_time := some now0,
                        end_time := some (now0 + d), is_running := true,
                        is_expired := false },
        quiz_active := true, quiz_duration := d } with hQ
    have hInvQ : Q.quiz_active
        = decide (Q.current_question_index < Q.questions.length) := by
      rw [hQ]
      simpa using hpos
    have hcomp := run_submits_complete subs Q
      { duration := d, remaining_time := d, start_time := some now0,
        end_time := some (now0 + d), is_running := true, is_expired := false }
      (now0 + d) hInvQ (by rw [hQ]; rfl) (by rw [hQ]; intro h; exact ⟨rfl, rfl, rfl, rfl⟩)
      htimes (by rw [hQ]; exact hpts) (by rw [hQ]; simpa using hN.le)
    obtain ⟨hqs, hidx, hact, hres⟩ := hcomp
    have hact' : (Q.run_submits subs).quiz_active = false := by
      rw [hact, hQ]
      simp [hN]
    refine ⟨hres, hact', ?_, ?_⟩ <;>
    · rw [show (Q.run_submits subs).end_quiz nowEnd
          = ((Q.run_submits subs).results_from_state nowEnd, Q.run_submits subs) by
        unfold QuizManager.end_quiz
        simp [hact']]
      unfold QuizManager.results_from_state
      simp [hidx, hqs, hQ, hN]

/-- Witness for C6: the two-question session of Scenario A — after both
submissions the session is inactive and the summary reports 2 of 2
questions answered. -/
theorem C6_witness :
    let qs : List Question :=
      [{ text := "What is 2 plus 2?", question_type := "mcq",
         correct_answer := .str "4", points := 10, options := ["3", "4"],
         explanation := none },
       { text := "Is Python a language?", question_type := "true_false",
         correct_answer := .bool true, points := 5, options := [],
         explanation := none }]
    let qmW : QuizManager :=
      { questions := qs, current_question_index := 0,
        current_user := some { name := "alice", current_score := 0, total_score := 0,
                               quizzes_taken := 0 },
        timer := some { duration := 60, remaining_time := 60, start_time := some 0,
                        end_time := some (0 + 60), is_running := true,
                        is_expired := false },
        quiz_active := true, quiz_duration := 60 }
    (qmW.run_submits [(.str "4", 1), (.bool true, 2)]).quiz_active = false
    ∧ ((qmW.run_submits [(.str "4", 1), (.bool true, 2)]).end_quiz 3).1.answered_questions
        = 2 := by
  intro qs qmW
  have h := C6_full_run_completes qs ⟨"alice", 0, 0, 0⟩ 60 0 3
    [(.str "4", 1), (.bool true, 2)]
    { QuizManager.new with questions := qs } qmW
    rfl rfl (by decide) (by decide) (by decide) (by decide)
  exact ⟨h.2.1, h.2.2.1⟩

end QuizApp
